import Mathlib

/-!
Shallow embedding of `Sources/CxxFlutterSwift/CxxFlutterSwift.cpp`
(FlutterSwift's C++ interop shim).

The shim adapts the Flutter desktop engine's raw function-pointer C API to
block (callback-object) based handlers:

* `FlutterDesktopMessengerSendWithReplyBlock` wraps a one-shot reply block,
  promoting it to the heap with `_Block_copy` and handing the engine a fixed
  thunk (`FlutterDesktopMessengerBinaryReplyThunk`) plus the block as opaque
  context;
* `FlutterDesktopMessengerSetCallbackBlock` maintains the process-wide table
  `flutterSwiftCallbacks` (a `std::map<std::string, const void *>` guarded by
  a mutex) that owns the promoted per-channel message-handler blocks.

The embedding models opaque block pointers (`BlockPtr`), the host runtime's
reference-counted promotion primitives (`_Block_copy` / `_Block_release`,
declared `extern` in the source and modelled here from their documented
reference-counting behavior), the callback table, and the engine's dispatch
table as observed through the shim's calls into the engine.  Each shim
operation returns its updated state together with a trace of observable
events (block invocations, releases and calls into the engine primitives),
so that invocation counts and orderings can be stated.  The model is
single-threaded: the source's mutex only serializes table mutations and no
claim concerns interleavings.
-/

namespace CxxFlutterSwift

/-- Raw byte buffers (`const uint8_t *` plus a length in the source). -/
abbrev Bytes := List Nat

/-- An opaque callback-object pointer (`const void *` / a block reference in
the source).  A block is either the null pointer, a caller-owned scope-bound
(stack) block, or a heap-promoted block produced by `_Block_copy`. -/
inductive BlockPtr where
  | null
  | stack (id : Nat)
  | heap (id : Nat)
deriving DecidableEq

/-- The function-pointer argument of `FlutterDesktopMessengerSendWithReply`:
either `nullptr` or `FlutterDesktopMessengerBinaryReplyThunk`. -/
inductive ReplyFnPtr where
  | null
  | binaryReplyThunk
deriving DecidableEq

/-- The function-pointer argument of `FlutterDesktopMessengerSetCallback`:
either `nullptr` or `FlutterDesktopMessageCallbackThunk`. -/
inductive MsgFnPtr where
  | null
  | messageCallbackThunk
deriving DecidableEq

/-- Association-list lookup (first entry whose key matches). -/
def lookupA {α β : Type} [DecidableEq α] : List (α × β) → α → Option β
  | [], _ => none
  | (k, v) :: rest, x => if k = x then some v else lookupA rest x

/-- Association-list insert-or-overwrite, the effect of `map[key] = value`
on a `std::map` (at most one entry per key). -/
def storeA {α β : Type} [DecidableEq α] : List (α × β) → α → β → List (α × β)
  | [], k, v => [(k, v)]
  | (k', v') :: rest, k, v =>
      if k' = k then (k, v) :: rest else (k', v') :: storeA rest k v

/-- Association-list key removal, the effect of `map.erase(key)`. -/
def eraseA {α β : Type} [DecidableEq α] : List (α × β) → α → List (α × β)
  | [], _ => []
  | (k', v') :: rest, k =>
      if k' = k then eraseA rest k else (k', v') :: eraseA rest k

/-- The host runtime's heap of promoted blocks: a fresh-id counter and the
reference count of every heap block id. -/
structure BlockHeap where
  nextId : Nat
  rc : List (Nat × Nat)
deriving DecidableEq

/-- Reference count of heap block `i` (0 when `i` was never promoted). -/
def BlockHeap.count (h : BlockHeap) (i : Nat) : Nat :=
  (lookupA h.rc i).getD 0

/-- Modelled from the spec: the host runtime's reference-counted copy
primitive `_Block_copy` (declared `extern` in the source, implemented by the
host runtime).  Copying a scope-bound block moves it to a fresh heap object
with reference count 1; copying an already-promoted heap block increments
its count and returns the same pointer; copying null returns null. -/
def blockCopy (h : BlockHeap) : BlockPtr → BlockPtr × BlockHeap
  | .null => (.null, h)
  | .stack _ =>
      (.heap h.nextId, { nextId := h.nextId + 1, rc := (h.nextId, 1) :: h.rc })
  | .heap i => (.heap i, { h with rc := storeA h.rc i (h.count i + 1) })

/-- Modelled from the spec: the host runtime's reference-counted release
primitive `_Block_release` (declared `extern` in the source, implemented by
the host runtime).  Releasing a heap block decrements its reference count;
releasing null or a scope-bound block is a no-op. -/
def blockRelease (h : BlockHeap) : BlockPtr → BlockHeap
  | .null => h
  | .stack _ => h
  | .heap i => { h with rc := storeA h.rc i (h.count i - 1) }

/-- Observable events of a shim operation, in program order: block
invocations, `_Block_release` calls, and the calls made into the engine's
two primitives (`FlutterDesktopMessengerSendWithReply` and
`FlutterDesktopMessengerSetCallback`) with the arguments passed. -/
inductive Event where
  | invokeReply (b : BlockPtr) (data : Bytes) (dataSize : Nat)
  | invokeMessage (messenger : Nat) (b : BlockPtr)
  | released (b : BlockPtr)
  | primSend (messenger : Nat) (channel : String) (message : Bytes)
      (messageSize : Nat) (fn : ReplyFnPtr) (ctx : BlockPtr) (result : Bool)
  | primSetCallback (messenger : Nat) (channel : String) (fn : MsgFnPtr)
      (ctx : BlockPtr)
deriving DecidableEq

/-- Number of times block `b` is invoked as a reply handler in a trace. -/
def countReplyInvokes (t : List Event) (b : BlockPtr) : Nat :=
  (t.filter (fun e => match e with
    | Event.invokeReply b' _ _ => decide (b' = b)
    | _ => false)).length

/-- Number of times block `b` is passed to `_Block_release` in a trace. -/
def countReleases (t : List Event) (b : BlockPtr) : Nat :=
  (t.filter (fun e => match e with
    | Event.released b' => decide (b' = b)
    | _ => false)).length

/-- The mutable state the shim touches: the block heap, the process-wide
table `flutterSwiftCallbacks` (channel name to owned block pointer), and the
engine's per-channel dispatch table as set through
`FlutterDesktopMessengerSetCallback` (function pointer and opaque context). -/
structure ShimState where
  heap : BlockHeap
  flutterSwiftCallbacks : List (String × BlockPtr)
  engine : List (String × MsgFnPtr × BlockPtr)
deriving DecidableEq

/-- The initial state: empty heap, empty callback table, no engine
registrations. -/
def initState : ShimState := ⟨⟨0, []⟩, [], []⟩

/-- `std::map::operator[]` on the callback table: returns the stored value
when the key is present; otherwise default-constructs the mapped value
(a null pointer), inserts it, and returns it. -/
def mapIndex (r : List (String × BlockPtr)) (channel : String) :
    BlockPtr × List (String × BlockPtr) :=
  match lookupA r channel with
  | some b => (b, r)
  | none => (BlockPtr.null, storeA r channel BlockPtr.null)

/-- `FlutterDesktopMessengerBinaryReplyThunk` (CxxFlutterSwift.cpp lines
25-31): cast `user_data` back to the reply block, invoke it with the reply
bytes and length, then `_Block_release` it. -/
def FlutterDesktopMessengerBinaryReplyThunk (h : BlockHeap) (data : Bytes)
    (dataSize : Nat) (userData : BlockPtr) : BlockHeap × List Event :=
  (blockRelease h userData,
   [Event.invokeReply userData data dataSize, Event.released userData])

/-- `FlutterDesktopMessengerSendWithReplyBlock` (lines 33-45): forwards to
the engine primitive `FlutterDesktopMessengerSendWithReply`, passing the
reply thunk and `_Block_copy(replyBlock)` as context when the reply block is
non-null, and null function pointer and null context otherwise.  The
engine primitive is external; its boolean verdict is supplied as
`primResult` and the arguments passed to it are recorded in the trace.
Returns the primitive's result, the updated state and the trace. -/
def FlutterDesktopMessengerSendWithReplyBlock (s : ShimState)
    (messenger : Nat) (channel : String) (message : Bytes)
    (messageSize : Nat) (replyBlock : BlockPtr) (primResult : Bool) :
    Bool × ShimState × List Event :=
  let fn := if replyBlock = BlockPtr.null then ReplyFnPtr.null
            else ReplyFnPtr.binaryReplyThunk
  let ctx := if replyBlock = BlockPtr.null then BlockPtr.null
             else (blockCopy s.heap replyBlock).1
  let h' := if replyBlock = BlockPtr.null then s.heap
            else (blockCopy s.heap replyBlock).2
  (primResult,
   { s with heap := h' },
   [Event.primSend messenger channel message messageSize fn ctx primResult])

/-- `FlutterDesktopMessageCallbackThunk` (lines 52-58): cast `user_data` to
the message-callback block and invoke it with the messenger and message
descriptor; it performs no lifetime management. -/
def FlutterDesktopMessageCallbackThunk (messenger : Nat)
    (userData : BlockPtr) : List Event :=
  [Event.invokeMessage messenger userData]

/-- `FlutterDesktopMessengerSetCallbackBlock` (lines 60-74).  Non-null
handler: store `_Block_copy(callbackBlock)` in `flutterSwiftCallbacks` under
the channel and call `FlutterDesktopMessengerSetCallback` with the message
thunk and the original `callbackBlock` as context.  Null handler: read the
table entry with `operator[]`, erase the key, `_Block_release` the read
value, and call `FlutterDesktopMessengerSetCallback` with null function
pointer and null context. -/
def FlutterDesktopMessengerSetCallbackBlock (s : ShimState) (messenger : Nat)
    (channel : String) (callbackBlock : BlockPtr) : ShimState × List Event :=
  if callbackBlock ≠ BlockPtr.null then
    let copied := (blockCopy s.heap callbackBlock).1
    let h' := (blockCopy s.heap callbackBlock).2
    let reg' := storeA s.flutterSwiftCallbacks channel copied
    let eng' := storeA s.engine channel
        (MsgFnPtr.messageCallbackThunk, callbackBlock)
    ({ heap := h', flutterSwiftCallbacks := reg', engine := eng' },
     [Event.primSetCallback messenger channel MsgFnPtr.messageCallbackThunk
        callbackBlock])
  else
    let savedCallbackBlock := (mapIndex s.flutterSwiftCallbacks channel).1
    let reg1 := (mapIndex s.flutterSwiftCallbacks channel).2
    let reg2 := eraseA reg1 channel
    let h' := blockRelease s.heap savedCallbackBlock
    let eng' := storeA s.engine channel (MsgFnPtr.null, BlockPtr.null)
    ({ heap := h', flutterSwiftCallbacks := reg2, engine := eng' },
     [Event.released savedCallbackBlock,
      Event.primSetCallback messenger channel MsgFnPtr.null BlockPtr.null])

/-! Association-list lemmas used by the claim proofs. -/

theorem lookupA_storeA_same {α β : Type} [DecidableEq α]
    (l : List (α × β)) (k : α) (v : β) :
    lookupA (storeA l k v) k = some v := by
  induction l with
  | nil => simp [storeA, lookupA]
  | cons p rest ih =>
      obtain ⟨a, b⟩ := p
      by_cases hk : a = k
      · simp [storeA, hk, lookupA]
      · simp [storeA, hk, lookupA, ih]

theorem lookupA_storeA_ne {α β : Type} [DecidableEq α]
    (l : List (α × β)) (k x : α) (v : β) (hx : k ≠ x) :
    lookupA (storeA l k v) x = lookupA l x := by
  induction l with
  | nil => simp [storeA, lookupA, Ne.symm hx, hx]
  | cons p rest ih =>
      obtain ⟨a, b⟩ := p
      by_cases hk : a = k
      · subst hk
        simp [storeA, lookupA, Ne.symm hx, hx]
      · simp [storeA, hk, lookupA, ih]

theorem lookupA_eraseA_same {α β : Type} [DecidableEq α]
    (l : List (α × β)) (k : α) :
    lookupA (eraseA l k) k = none := by
  induction l with
  | nil => simp [eraseA, lookupA]
  | cons p rest ih =>
      obtain ⟨a, b⟩ := p
      by_cases hk : a = k
      · simpa [eraseA, hk] using ih
      · simpa [eraseA, lookupA, hk] using ih

theorem lookupA_eraseA_ne {α β : Type} [DecidableEq α]
    (l : List (α × β)) (k x : α) (hx : k ≠ x) :
    lookupA (eraseA l k) x = lookupA l x := by
  induction l with
  | nil => simp [eraseA, lookupA]
  | cons p rest ih =>
      obtain ⟨a, b⟩ := p
      by_cases hk : a = k
      · subst hk
        simp [eraseA, lookupA, Ne.symm hx, hx, ih]
      · simp [eraseA, lookupA, hk, ih]

theorem eraseA_of_lookupA_none {α β : Type} [DecidableEq α]
    (l : List (α × β)) (k : α) (h : lookupA l k = none) :
    eraseA l k = l := by
  induction l with
  | nil => simp [eraseA]
  | cons p rest ih =>
      obtain ⟨a, b⟩ := p
      by_cases hk : a = k
      · simp [lookupA, hk] at h
      · have h' : lookupA rest k = none := by
          simpa [lookupA, hk] using h
        simp [eraseA, hk, ih h']

theorem eraseA_storeA {α β : Type} [DecidableEq α]
    (l : List (α × β)) (k : α) (v : β) :
    eraseA (storeA l k v) k = eraseA l k := by
  induction l with
  | nil => simp [storeA, eraseA]
  | cons p rest ih =>
      obtain ⟨a, b⟩ := p
      by_cases hk : a = k
      · simp [storeA, hk, eraseA]
      · simp [storeA, hk, eraseA, ih]

/-! Claim theorems. -/

/-- C7: calling `FlutterDesktopMessengerSendWithReplyBlock` with a null
reply handler invokes the underlying send primitive with a null function
pointer and a null context, performs no heap promotion (the whole state is
unchanged), and returns exactly the boolean the primitive returns. -/
theorem sendWithReplyBlock_null_handler (s : ShimState) (m : Nat)
    (ch : String) (msg : Bytes) (len : Nat) (res : Bool) :
    FlutterDesktopMessengerSendWithReplyBlock s m ch msg len
        BlockPtr.null res =
      (res, s,
       [Event.primSend m ch msg len ReplyFnPtr.null BlockPtr.null res]) :=
  rfl

/-- C9: for every input (messenger, channel, message bytes, length, and any
reply handler, null or not), `FlutterDesktopMessengerSendWithReplyBlock`
returns exactly the boolean reported by the underlying send primitive. -/
theorem sendWithReplyBlock_returns_primitive_result (s : ShimState)
    (m : Nat) (ch : String) (msg : Bytes) (len : Nat) (blk : BlockPtr)
    (res : Bool) :
    (FlutterDesktopMessengerSendWithReplyBlock s m ch msg len blk res).1 =
      res :=
  rfl

/-- C10: every call to `FlutterDesktopMessengerSendWithReplyBlock` leaves
the channel-to-handler table `flutterSwiftCallbacks` unchanged, regardless
of the handler argument or the primitive's result. -/
theorem sendWithReplyBlock_preserves_registry (s : ShimState) (m : Nat)
    (ch : String) (msg : Bytes) (len : Nat) (blk : BlockPtr) (res : Bool) :
    (FlutterDesktopMessengerSendWithReplyBlock s m ch msg len blk
        res).2.1.flutterSwiftCallbacks = s.flutterSwiftCallbacks :=
  rfl

/-- C1: evaluation at the failing input.  From the initial state, a send
with a non-null (scope-bound) reply handler whose primitive reports failure
returns false and leaves the freshly promoted handle (heap id 0) at
reference count 1, while the trace contains no release and no handler
invocation: the promoted handle is leaked, contradicting the claim that it
is released exactly once on a failed send. -/
theorem sendWithReplyBlock_failure_leaks_handle :
    (FlutterDesktopMessengerSendWithReplyBlock initState 0 "ch" [] 0
        (BlockPtr.stack 0) false).1 = false ∧
    (FlutterDesktopMessengerSendWithReplyBlock initState 0 "ch" [] 0
        (BlockPtr.stack 0) false).2.1.heap.count 0 = 1 ∧
    countReleases
      (FlutterDesktopMessengerSendWithReplyBlock initState 0 "ch" [] 0
        (BlockPtr.stack 0) false).2.2 (BlockPtr.heap 0) = 0 ∧
    countReplyInvokes
      (FlutterDesktopMessengerSendWithReplyBlock initState 0 "ch" [] 0
        (BlockPtr.stack 0) false).2.2 (BlockPtr.heap 0) = 0 :=
  ⟨rfl, rfl, rfl, rfl⟩

/-- C2: evaluation at the failing input.  Installing handler A (stack block
0, promoted to heap id 0) on channel "ch" and then handler B (stack block 1,
promoted to heap id 1) on the same channel leaves BOTH promoted objects at
reference count 1: the replace path overwrites the table slot without
releasing A's promoted object, which no later operation can reach, so its
count never drops to zero — contradicting the claim that replacement
releases the old handler. -/
theorem setCallbackBlock_replace_leaks_old_handler :
    ((FlutterDesktopMessengerSetCallbackBlock
        (FlutterDesktopMessengerSetCallbackBlock initState 0 "ch"
          (BlockPtr.stack 0)).1 0 "ch" (BlockPtr.stack 1)).1.heap.count 0
      = 1) ∧
    ((FlutterDesktopMessengerSetCallbackBlock
        (FlutterDesktopMessengerSetCallbackBlock initState 0 "ch"
          (BlockPtr.stack 0)).1 0 "ch" (BlockPtr.stack 1)).1.heap.count 1
      = 1) ∧
    (lookupA (FlutterDesktopMessengerSetCallbackBlock
        (FlutterDesktopMessengerSetCallbackBlock initState 0 "ch"
          (BlockPtr.stack 0)).1 0 "ch"
          (BlockPtr.stack 1)).1.flutterSwiftCallbacks "ch"
      = some (BlockPtr.heap 1)) :=
  ⟨rfl, rfl, rfl⟩

/-- C3: evaluation at the failing input.  Installing a scope-bound handler
(stack block 0) on channel "ch" stores the promoted copy (heap id 0) in the
table, but the context registered with the engine — both in the engine's
dispatch table and in the recorded `FlutterDesktopMessengerSetCallback`
call — is the caller's original un-promoted block, a different object:
the code passes `callbackBlock`, not `_Block_copy(callbackBlock)`, to the
engine, contradicting the claim. -/
theorem setCallbackBlock_registers_unpromoted_context :
    (lookupA (FlutterDesktopMessengerSetCallbackBlock initState 0 "ch"
        (BlockPtr.stack 0)).1.flutterSwiftCallbacks "ch"
      = some (BlockPtr.heap 0)) ∧
    (lookupA (FlutterDesktopMessengerSetCallbackBlock initState 0 "ch"
        (BlockPtr.stack 0)).1.engine "ch"
      = some (MsgFnPtr.messageCallbackThunk, BlockPtr.stack 0)) ∧
    ((FlutterDesktopMessengerSetCallbackBlock initState 0 "ch"
        (BlockPtr.stack 0)).2
      = [Event.primSetCallback 0 "ch" MsgFnPtr.messageCallbackThunk
          (BlockPtr.stack 0)]) ∧
    BlockPtr.stack 0 ≠ BlockPtr.heap 0 :=
  ⟨rfl, rfl, rfl, by decide⟩

/-- C4: from any state in which a channel has no table entry, installing a
(scope-bound) handler and then clearing it leaves no table entry for the
channel, the handle promoted by the install at reference count 0, every
other heap object's reference count unchanged (so zero live promoted
handlers remain for the channel), and the engine registered with a null
function pointer and null context for the channel. -/
theorem setCallbackBlock_install_then_clear (s : ShimState) (m m' : Nat)
    (ch : String) (bid j : Nat)
    (habsent : lookupA s.flutterSwiftCallbacks ch = none)
    (hj : j ≠ s.heap.nextId) :
    (lookupA (FlutterDesktopMessengerSetCallbackBlock
        (FlutterDesktopMessengerSetCallbackBlock s m ch
          (BlockPtr.stack bid)).1 m' ch
        BlockPtr.null).1.flutterSwiftCallbacks ch = none) ∧
    ((FlutterDesktopMessengerSetCallbackBlock
        (FlutterDesktopMessengerSetCallbackBlock s m ch
          (BlockPtr.stack bid)).1 m' ch
        BlockPtr.null).1.heap.count s.heap.nextId = 0) ∧
    ((FlutterDesktopMessengerSetCallbackBlock
        (FlutterDesktopMessengerSetCallbackBlock s m ch
          (BlockPtr.stack bid)).1 m' ch
        BlockPtr.null).1.heap.count j = s.heap.count j) ∧
    (lookupA (FlutterDesktopMessengerSetCallbackBlock
        (FlutterDesktopMessengerSetCallbackBlock s m ch
          (BlockPtr.stack bid)).1 m' ch BlockPtr.null).1.engine ch
      = some (MsgFnPtr.null, BlockPtr.null)) := by
  refine ⟨?_, ?_, ?_, ?_⟩ <;>
    simp [FlutterDesktopMessengerSetCallbackBlock, blockCopy, blockRelease,
      mapIndex, BlockHeap.count, lookupA_storeA_same, lookupA_eraseA_same,
      lookupA, storeA, Ne.symm hj]

/-- C4 witness. -/
theorem setCallbackBlock_install_then_clear_witness :
    (lookupA initState.flutterSwiftCallbacks "ch" = none ∧
     (7 : Nat) ≠ initState.heap.nextId) ∧
    ((lookupA (FlutterDesktopMessengerSetCallbackBlock
        (FlutterDesktopMessengerSetCallbackBlock initState 0 "ch"
          (BlockPtr.stack 5)).1 1 "ch"
        BlockPtr.null).1.flutterSwiftCallbacks "ch" = none) ∧
    ((FlutterDesktopMessengerSetCallbackBlock
        (FlutterDesktopMessengerSetCallbackBlock initState 0 "ch"
          (BlockPtr.stack 5)).1 1 "ch"
        BlockPtr.null).1.heap.count initState.heap.nextId = 0) ∧
    ((FlutterDesktopMessengerSetCallbackBlock
        (FlutterDesktopMessengerSetCallbackBlock initState 0 "ch"
          (BlockPtr.stack 5)).1 1 "ch"
        BlockPtr.null).1.heap.count 7 = initState.heap.count 7) ∧
    (lookupA (FlutterDesktopMessengerSetCallbackBlock
        (FlutterDesktopMessengerSetCallbackBlock initState 0 "ch"
          (BlockPtr.stack 5)).1 1 "ch" BlockPtr.null).1.engine "ch"
      = some (MsgFnPtr.null, BlockPtr.null))) :=
  ⟨⟨rfl, by decide⟩,
   setCallbackBlock_install_then_clear initState 0 1 "ch" 5 7 rfl
     (by decide)⟩

/-- C5: clearing a channel that has no table entry releases no owned
callback object and leaves the heap and the table exactly as they were:
the only effects are the engine unregistration call with null function
pointer and null context, and a release call whose argument is the null
default value produced by the missing-key lookup (a no-op). -/
theorem setCallbackBlock_clear_absent_channel (s : ShimState) (m : Nat)
    (ch : String)
    (habsent : lookupA s.flutterSwiftCallbacks ch = none) :
    FlutterDesktopMessengerSetCallbackBlock s m ch BlockPtr.null =
      ({ s with engine := storeA s.engine ch (MsgFnPtr.null, BlockPtr.null) },
       [Event.released BlockPtr.null,
        Event.primSetCallback m ch MsgFnPtr.null BlockPtr.null]) := by
  simp [FlutterDesktopMessengerSetCallbackBlock, mapIndex, habsent,
    blockRelease, eraseA_storeA, eraseA_of_lookupA_none _ _ habsent]

/-- C5 witness. -/
theorem setCallbackBlock_clear_absent_channel_witness :
    lookupA initState.flutterSwiftCallbacks "ch" = none ∧
    FlutterDesktopMessengerSetCallbackBlock initState 3 "ch" BlockPtr.null =
      ({ initState with
          engine := storeA initState.engine "ch"
            (MsgFnPtr.null, BlockPtr.null) },
       [Event.released BlockPtr.null,
        Event.primSetCallback 3 "ch" MsgFnPtr.null BlockPtr.null]) :=
  ⟨rfl, setCallbackBlock_clear_absent_channel initState 3 "ch" rfl⟩

/-- C6: a single invocation of the reply thunk on a live promoted reply
handle invokes the handler exactly once, with exactly the delivered reply
bytes and length, and releases the handle exactly once, with the invocation
preceding the release in the trace; the handle's reference count drops by
exactly one. -/
theorem binaryReplyThunk_invokes_once_then_releases (h : BlockHeap)
    (i : Nat) (data : Bytes) (len : Nat) (hlive : 1 ≤ h.count i) :
    (countReplyInvokes
      (FlutterDesktopMessengerBinaryReplyThunk h data len
        (BlockPtr.heap i)).2 (BlockPtr.heap i) = 1) ∧
    (countReleases
      (FlutterDesktopMessengerBinaryReplyThunk h data len
        (BlockPtr.heap i)).2 (BlockPtr.heap i) = 1) ∧
    ((FlutterDesktopMessengerBinaryReplyThunk h data len
        (BlockPtr.heap i)).2
      = [Event.invokeReply (BlockPtr.heap i) data len,
         Event.released (BlockPtr.heap i)]) ∧
    ((FlutterDesktopMessengerBinaryReplyThunk h data len
        (BlockPtr.heap i)).1.count i + 1 = h.count i) := by
  refine ⟨?_, ?_, rfl, ?_⟩
  · simp [countReplyInvokes, FlutterDesktopMessengerBinaryReplyThunk]
  · simp [countReleases, FlutterDesktopMessengerBinaryReplyThunk]
  · simp only [FlutterDesktopMessengerBinaryReplyThunk, blockRelease,
      BlockHeap.count, lookupA_storeA_same, Option.getD_some] at hlive ⊢
    omega

/-- C6 witness. -/
theorem binaryReplyThunk_invokes_once_then_releases_witness :
    1 ≤ (BlockHeap.mk 1 [(0, 1)]).count 0 ∧
    ((countReplyInvokes
      (FlutterDesktopMessengerBinaryReplyThunk (BlockHeap.mk 1 [(0, 1)])
        [2, 3] 2 (BlockPtr.heap 0)).2 (BlockPtr.heap 0) = 1) ∧
    (countReleases
      (FlutterDesktopMessengerBinaryReplyThunk (BlockHeap.mk 1 [(0, 1)])
        [2, 3] 2 (BlockPtr.heap 0)).2 (BlockPtr.heap 0) = 1) ∧
    ((FlutterDesktopMessengerBinaryReplyThunk (BlockHeap.mk 1 [(0, 1)])
        [2, 3] 2 (BlockPtr.heap 0)).2
      = [Event.invokeReply (BlockPtr.heap 0) [2, 3] 2,
         Event.released (BlockPtr.heap 0)]) ∧
    ((FlutterDesktopMessengerBinaryReplyThunk (BlockHeap.mk 1 [(0, 1)])
        [2, 3] 2 (BlockPtr.heap 0)).1.count 0 + 1
      = (BlockHeap.mk 1 [(0, 1)]).count 0)) :=
  ⟨by decide,
   binaryReplyThunk_invokes_once_then_releases (BlockHeap.mk 1 [(0, 1)])
     0 [2, 3] 2 (by decide)⟩

/-- C8: for distinct channels a and b, any call to
`FlutterDesktopMessengerSetCallbackBlock` on channel a — installing,
replacing or clearing — leaves both the table entry and the engine's
registered handler for channel b unchanged. -/
theorem setCallbackBlock_other_channel_unchanged (s : ShimState) (m : Nat)
    (a b : String) (blk : BlockPtr) (hab : a ≠ b) :
    (lookupA (FlutterDesktopMessengerSetCallbackBlock s m a
        blk).1.flutterSwiftCallbacks b
      = lookupA s.flutterSwiftCallbacks b) ∧
    (lookupA (FlutterDesktopMessengerSetCallbackBlock s m a blk).1.engine b
      = lookupA s.engine b) := by
  by_cases hblk : blk = BlockPtr.null
  · subst hblk
    cases hreg : lookupA s.flutterSwiftCallbacks a with
    | some v =>
        simp [FlutterDesktopMessengerSetCallbackBlock, mapIndex, hreg,
          lookupA_eraseA_ne _ _ _ hab, lookupA_storeA_ne _ _ _ _ hab]
    | none =>
        simp [FlutterDesktopMessengerSetCallbackBlock, mapIndex, hreg,
          lookupA_eraseA_ne _ _ _ hab, lookupA_storeA_ne _ _ _ _ hab]
  · simp [FlutterDesktopMessengerSetCallbackBlock, hblk,
      lookupA_storeA_ne _ _ _ _ hab]

/-- C8 witness. -/
theorem setCallbackBlock_other_channel_unchanged_witness :
    "a" ≠ "b" ∧
    ((lookupA (FlutterDesktopMessengerSetCallbackBlock
        (ShimState.mk (BlockHeap.mk 4 [(3, 1)])
          [("b", BlockPtr.heap 3)]
          [("b", (MsgFnPtr.messageCallbackThunk, BlockPtr.stack 3))])
        0 "a" (BlockPtr.stack 1)).1.flutterSwiftCallbacks "b"
      = lookupA (ShimState.mk (BlockHeap.mk 4 [(3, 1)])
          [("b", BlockPtr.heap 3)]
          [("b", (MsgFnPtr.messageCallbackThunk,
            BlockPtr.stack 3))]).flutterSwiftCallbacks "b") ∧
    (lookupA (FlutterDesktopMessengerSetCallbackBlock
        (ShimState.mk (BlockHeap.mk 4 [(3, 1)])
          [("b", BlockPtr.heap 3)]
          [("b", (MsgFnPtr.messageCallbackThunk, BlockPtr.stack 3))])
        0 "a" (BlockPtr.stack 1)).1.engine "b"
      = lookupA (ShimState.mk (BlockHeap.mk 4 [(3, 1)])
          [("b", BlockPtr.heap 3)]
          [("b", (MsgFnPtr.messageCallbackThunk,
            BlockPtr.stack 3))]).engine "b")) :=
  ⟨by decide,
   setCallbackBlock_other_channel_unchanged
     (ShimState.mk (BlockHeap.mk 4 [(3, 1)])
        [("b", BlockPtr.heap 3)]
        [("b", (MsgFnPtr.messageCallbackThunk, BlockPtr.stack 3))])
     0 "a" "b" (BlockPtr.stack 1) (by decide)⟩

end CxxFlutterSwift
